import Mathlib

set_option autoImplicit false

namespace NestForge

/-- Shallow model of the JavaScript runtime values that flow through the
logging service: strings, numbers, booleans, null, undefined, plain objects
with ordered string-keyed fields, and Error instances carrying a stack text. -/
inductive JVal where
  | jstr (s : String)
  | jnum (n : Int)
  | jbool (b : Bool)
  | jnull
  | jundef
  | jobj (fields : List (String × JVal))
  | jerr (stack : String)

/-- A JavaScript object literal, as an ordered list of property bindings.
Later bindings overwrite earlier ones, matching object-spread semantics. -/
abbrev JObj := List (String × JVal)

/-- Property lookup with JavaScript object-literal semantics: when a key is
bound several times (for example by successive spreads), the LAST binding
wins. -/
def getProp : JObj → String → Option JVal
  | [], _ => none
  | (k2, v) :: rest, k =>
    match getProp rest k with
    | some v2 => some v2
    | none => if k2 = k then some v else none

/-- Field lookup on the JSON-serialized form of an object: JSON.stringify
omits properties whose value is undefined, so a binding to undefined reads
as an absent field in every sink's recorded output. -/
def serializedGet (o : JObj) (k : String) : Option JVal :=
  match getProp o k with
  | some JVal.jundef => none
  | r => r

/-- JavaScript truthiness, as used by the || defaults in the service. -/
def truthy : JVal → Bool
  | JVal.jstr s => !(s == "")
  | JVal.jnum n => !(n == 0)
  | JVal.jbool b => b
  | JVal.jnull => false
  | JVal.jundef => false
  | JVal.jobj _ => true
  | JVal.jerr _ => true

/-- Models the JavaScript expression a || b. -/
def jsOr (a b : JVal) : JVal := if truthy a then a else b

/-- Models object spread of an arbitrary value: objects contribute their
fields, strings contribute indexed single-character fields, and all other
primitives (including Error instances, whose stack is non-enumerable)
contribute nothing. -/
def spreadObj : JVal → JObj
  | JVal.jobj fields => fields
  | JVal.jstr s => s.toList.enum.map (fun p => (toString p.1, JVal.jstr (String.mk [p.2])))
  | _ => []

/-- Calendar instant as seen by the JavaScript Date object; month is 1-12. -/
structure JsDate where
  weekday : Nat
  month : Nat
  day : Nat
  year : Nat

def weekdayNames : List String := ["Sun", "Mon", "Tue", "Wed", "Thu", "Fri", "Sat"]

def monthNames : List String :=
  ["Jan", "Feb", "Mar", "Apr", "May", "Jun", "Jul", "Aug", "Sep", "Oct", "Nov", "Dec"]

/-- Left-pads a number below 100 to two decimal digits. -/
def pad2 (n : Nat) : String := if n < 10 then "0" ++ toString n else toString n

/-- Models Date.prototype.toDateString, which produces a locale date string
of the shape Www Mmm DD YYYY, for example Sat Mar 15 2025. -/
def toDateString (d : JsDate) : String :=
  weekdayNames.getD d.weekday "" ++ " " ++ monthNames.getD (d.month - 1) "" ++ " " ++
    pad2 d.day ++ " " ++ toString d.year

/-- Checks that a string starts with an ISO-8601 calendar date, that is
four year digits, a dash, two month digits, a dash and two day digits. -/
def hasIsoDateShape (s : String) : Bool :=
  match s.toList with
  | y1 :: y2 :: y3 :: y4 :: s1 :: m1 :: m2 :: s2 :: d1 :: d2 :: _ =>
    y1.isDigit && y2.isDigit && y3.isDigit && y4.isDigit && (s1 == '-') &&
      m1.isDigit && m2.isDigit && (s2 == '-') && d1.isDigit && d2.isDigit
  | _ => false

/-- The fixed context label of the service, from the source field context. -/
def LoggingService.loggerContext : String := "GlobalLogger"

/-- The first four bindings of every entry built by print: timestamp (from
new Date().toDateString() at formatting time), level, context, message. -/
def baseFields (now : JsDate) (level message : String) : JObj :=
  [("timestamp", JVal.jstr (toDateString now)),
   ("level", JVal.jstr level),
   ("context", JVal.jstr LoggingService.loggerContext),
   ("message", JVal.jstr message)]

/-- Embeds LoggingService.print: builds the entry object literal with
timestamp, level, context and message, then spreads the stored
requestMetadata and finally the caller metadata over it. The clock read by
new Date() is passed as the parameter now. -/
def LoggingService.print (now : JsDate) (requestMetadata : JObj)
    (level message : String) (metadata : JVal) : JObj :=
  baseFields now level message ++ requestMetadata ++ spreadObj metadata

/-- Embeds LoggingService.log: defaults the first optional parameter to an
empty object and passes it to print WRAPPED in an object literal under the
single key metadata. -/
def LoggingService.log (now : JsDate) (requestMetadata : JObj)
    (message : String) (optionalParams : List JVal) : JObj :=
  let metadata := jsOr (optionalParams.getD 0 JVal.jundef) (JVal.jobj [])
  LoggingService.print now requestMetadata "info" message (JVal.jobj [("metadata", metadata)])

/-- Embeds LoggingService.error: the first optional parameter is used only
when it is an Error instance, the caller metadata is read from the second
optional parameter when at least two are given (else an empty object), and
the entry object spreads that metadata and then binds error to the stack
text of the Error, or to undefined when none was given. -/
def LoggingService.error (now : JsDate) (requestMetadata : JObj)
    (message : String) (optionalParams : List JVal) : JObj :=
  let errStack : Option String :=
    match optionalParams.getD 0 JVal.jundef with
    | JVal.jerr stack => some stack
    | _ => none
  let metadata := if optionalParams.length > 1 then optionalParams.getD 1 JVal.jundef else JVal.jobj []
  let errField : JVal :=
    match errStack with
    | some stack => JVal.jstr stack
    | none => JVal.jundef
  LoggingService.print now requestMetadata "error" message
    (JVal.jobj (spreadObj metadata ++ [("error", errField)]))

/-- Embeds LoggingService.warn: defaults the first optional parameter to an
empty object and passes it to print directly, so its keys are spread at the
top level of the entry. -/
def LoggingService.warn (now : JsDate) (requestMetadata : JObj)
    (message : String) (optionalParams : List JVal) : JObj :=
  let metadata := jsOr (optionalParams.getD 0 JVal.jundef) (JVal.jobj [])
  LoggingService.print now requestMetadata "warn" message metadata

/-- Embeds LoggingService.debug, identical to warn except for the level. -/
def LoggingService.debug (now : JsDate) (requestMetadata : JObj)
    (message : String) (optionalParams : List JVal) : JObj :=
  let metadata := jsOr (optionalParams.getD 0 JVal.jundef) (JVal.jobj [])
  LoggingService.print now requestMetadata "debug" message metadata

/-- Embeds LoggingService.verbose, identical to warn except for the level. -/
def LoggingService.verbose (now : JsDate) (requestMetadata : JObj)
    (message : String) (optionalParams : List JVal) : JObj :=
  let metadata := jsOr (optionalParams.getD 0 JVal.jundef) (JVal.jobj [])
  LoggingService.print now requestMetadata "verbose" message metadata

/-- The denominator of the Math.random outcome model: JavaScript engines
return a double of the form k divided by 2 to the 53, with k below 2^53. -/
def randomDenom : Nat := 2 ^ 53

/-- Character for a base-36 digit, 0-9 then a-z. -/
def base36Digit (d : Nat) : Char := if d < 10 then Char.ofNat (48 + d) else Char.ofNat (87 + d)

/-- Base-36 fraction digits of k divided by 2^53, produced by repeated
multiplication as Number.prototype.toString does for the fractional part;
the fuel bounds the recursion and exceeds the 27 digits after which the
fraction is exactly exhausted. -/
def frac36Digits : Nat → Nat → List Char
  | 0, _ => []
  | fuel + 1, k =>
    if k = 0 then []
    else base36Digit (k * 36 / randomDenom) :: frac36Digits fuel (k * 36 % randomDenom)

/-- Character list of Math.random().toString(36) at outcome k over 2^53:
the number 0 prints as the single character 0, every other outcome prints
as 0. followed by its base-36 fraction digits. -/
def jsToString36Chars (k : Nat) : List Char :=
  if k = 0 then ['0'] else '0' :: '.' :: frac36Digits 60 k

/-- Embeds LoggingService.generateRequestId, which returns
Math.random().toString(36).substring(2, 15); the substring keeps the
characters at indices 2 through 14. -/
def LoggingService.generateRequestId (k : Nat) : String :=
  String.mk (((jsToString36Chars k).drop 2).take 13)

/-- The parts of an Express request that setRequest reads. -/
structure Request where
  headers : JObj
  ip : String
  method : String
  originalUrl : String

/-- Header access, yielding undefined when the header is absent. -/
def headerGet (request : Request) (name : String) : JVal :=
  (getProp request.headers name).getD JVal.jundef

/-- Embeds LoggingService.setRequest: builds the requestMetadata object
stored in the service's single shared field. The requestId comes from the
x-request-id header when truthy, else from generateRequestId at the
randomness outcome k. Note the source stores the HTTP verb under the key
methode, not method. -/
def LoggingService.setRequest (k : Nat) (request : Request) : JObj :=
  [("requestId", jsOr (headerGet request "x-request-id")
      (JVal.jstr (LoggingService.generateRequestId k))),
   ("userAgent", headerGet request "user-agent"),
   ("ip", JVal.jstr request.ip),
   ("methode", JVal.jstr request.method),
   ("url", JVal.jstr request.originalUrl)]

/-- Priority of a level name in winston's npm levels table; lower numbers
are more severe. -/
def npmLevelPriority (level : String) : Option Nat :=
  if level = "error" then some 0
  else if level = "warn" then some 1
  else if level = "info" then some 2
  else if level = "http" then some 3
  else if level = "verbose" then some 4
  else if level = "debug" then some 5
  else if level = "silly" then some 6
  else none

/-- A winston transport with a configured minimum level accepts an entry
exactly when the entry's priority is at most the configured priority. -/
def transportAccepts (transportLevel entryLevel : String) : Bool :=
  match npmLevelPriority entryLevel, npmLevelPriority transportLevel with
  | some e, some t => decide (e ≤ t)
  | _, _ => false

/-- The level the source configures on the ElasticsearchTransport. -/
def elasticsearchTransportLevel : String := "info"

/-- The timestamp format string the constructor passes to winston's
format.timestamp. -/
def winstonTimestampFormat : String := "YYYY-MM-DD HH:mm:ss"

/-- Configuration record of the DailyRotateFile transport. -/
structure DailyRotateFileConfig where
  dirname : String
  filename : String
  datePattern : String
  maxFiles : String

/-- The DailyRotateFile options the source constructor passes. -/
def dailyRotateFileConfig : DailyRotateFileConfig :=
  { dirname := "logs", filename := "app-%DATE%.log",
    datePattern := "YYYY-MM-DD", maxFiles := "30d" }

/-- Decimal digit character of d. -/
def digitChar (d : Nat) : Char := Char.ofNat (48 + d)

/-- Character list of a date rendered with the YYYY-MM-DD pattern from the
transport's datePattern option: four year digits, a dash, two month digits,
a dash, two day digits. -/
def formatIsoDateChars (y m d : Nat) : List Char :=
  [digitChar (y / 1000 % 10), digitChar (y / 100 % 10), digitChar (y / 10 % 10),
   digitChar (y % 10), '-', digitChar (m / 10 % 10), digitChar (m % 10), '-',
   digitChar (d / 10 % 10), digitChar (d % 10)]

/-- String form of a date rendered with the YYYY-MM-DD pattern. -/
def formatIsoDate (y m d : Nat) : String := String.mk (formatIsoDateChars y m d)

/-- Replaces the first occurrence of token in a character list. -/
def replaceFirstToken (token repl : List Char) : List Char → List Char
  | [] => []
  | c :: rest =>
    if token.isPrefixOf (c :: rest) then repl ++ (c :: rest).drop token.length
    else c :: replaceFirstToken token repl rest

/-- Modelled from the spec: the rotating file sink, provided by the
winston-daily-rotate-file library whose code is outside this repository,
derives the file path for a day by substituting the datePattern-formatted
date for the %DATE% token of the configured filename, under the configured
directory. -/
def logFileForDate (y m d : Nat) : String :=
  dailyRotateFileConfig.dirname ++ "/" ++
    String.mk (replaceFirstToken "%DATE%".toList (formatIsoDate y m d).toList
      dailyRotateFileConfig.filename.toList)

/-- Value of a nonempty decimal digit string. -/
def decDigitsVal : List Char → Option Nat
  | [] => none
  | [c] => if c.isDigit then some (c.toNat - 48) else none
  | c :: rest =>
    if c.isDigit then (decDigitsVal rest).map (fun v => (c.toNat - 48) * 10 ^ rest.length + v)
    else none

/-- Modelled from the spec: a maxFiles option of the form Nd, as parsed by
the winston-daily-rotate-file library, means a retention window of N days. -/
def parseMaxFilesDays (s : String) : Option Nat :=
  match s.toList.getLast? with
  | some c => if c = 'd' then decDigitsVal s.toList.dropLast else none
  | none => none

/-- The retention window in days configured by maxFiles. -/
def retentionDays : Nat := (parseMaxFilesDays dailyRotateFileConfig.maxFiles).getD 0

/-- Modelled from the spec: after a rotation and prune cycle, a log file is
deleted exactly when its age in days exceeds the retention window. -/
def pruneDeletes (ageDays : Nat) : Bool := decide (retentionDays < ageDays)

/-- An interleaving event of concurrently handled requests: a handler's
middleware storing its request context, or a handler emitting a log line. -/
inductive HandlerEvent where
  | setReq (handler : String) (request : Request)
  | emit (handler : String) (message : String)

/-- Models the singleton LoggingService under concurrent request handling:
the service has ONE shared mutable requestMetadata field; every setRequest
overwrites it and every log call reads whatever it currently holds,
whichever handler is emitting. Returns the emitted entries tagged with the
emitting handler. -/
def runShared (now : JsDate) (k : Nat) : JObj → List HandlerEvent → List (String × JObj)
  | _, [] => []
  | _, HandlerEvent.setReq _ request :: rest =>
    runShared now k (LoggingService.setRequest k request) rest
  | state, HandlerEvent.emit handler message :: rest =>
    (handler, LoggingService.log now state message []) :: runShared now k state rest

/-- Saturday March 15 2025, a sample clock reading. -/
def sampleDate : JsDate := { weekday := 6, month := 3, day := 15, year := 2025 }

/-- A request carrying request id A in its x-request-id header. -/
def requestA : Request :=
  { headers := [("x-request-id", JVal.jstr "A")], ip := "10.0.0.1",
    method := "GET", originalUrl := "/a" }

/-- A request carrying request id B in its x-request-id header. -/
def requestB : Request :=
  { headers := [("x-request-id", JVal.jstr "B")], ip := "10.0.0.2",
    method := "GET", originalUrl := "/b" }

/-- An interleaving in which handler A's middleware stores A's context,
handler B's middleware then stores B's context on another concurrent path,
and handler A then emits a log line while still handling request A. -/
def contaminationSchedule : List HandlerEvent :=
  [HandlerEvent.setReq "A" requestA,
   HandlerEvent.setReq "B" requestB,
   HandlerEvent.emit "A" "still handling request A"]

/-- A request with no x-request-id header. -/
def noIdRequest : Request :=
  { headers := [("user-agent", JVal.jstr "curl")], ip := "10.0.0.3",
    method := "GET", originalUrl := "/c" }

/-- Tests whether a value is an Error instance, as instanceof Error does. -/
def isErrorVal : JVal → Bool
  | JVal.jerr _ => true
  | _ => false

/-- The stored request context posited by the testable property of the
spec: requestId abc, ip 1.2.3.4, method GET, url /x. -/
def claimContext : JObj :=
  [("requestId", JVal.jstr "abc"), ("ip", JVal.jstr "1.2.3.4"),
   ("method", JVal.jstr "GET"), ("url", JVal.jstr "/x")]

/-- The entry produced by log hello with caller metadata userId 7 under the
posited stored context. -/
def claimEntry : JObj :=
  LoggingService.log sampleDate claimContext "hello" [JVal.jobj [("userId", JVal.jnum 7)]]

/-- A GET request to /x from 1.2.3.4 carrying request id abc. -/
def claimRequest : Request :=
  { headers := [("x-request-id", JVal.jstr "abc")], ip := "1.2.3.4",
    method := "GET", originalUrl := "/x" }

/-- Lookup distributes over object concatenation, preferring the right
part: a spread appended later shadows the earlier bindings. -/
theorem getProp_append (a b : JObj) (k : String) :
    getProp (a ++ b) k = (getProp b k).elim (getProp a k) some := by
  induction a with
  | nil =>
    cases hb : getProp b k <;> simp [getProp, hb, Option.elim]
  | cons p rest ih =>
    cases p with
    | mk k2 v =>
      simp only [List.cons_append, getProp, List.append_eq]
      rw [ih]
      cases hb : getProp b k <;> cases hr : getProp rest k <;>
        simp [Option.elim, hr]

/-- A string built from a nonempty character list is not the empty string. -/
theorem stringMk_cons_ne_empty (c : Char) (l : List Char) : String.mk (c :: l) ≠ "" := by
  intro h
  have h2 : c :: l = ([] : List Char) := congrArg String.data h
  exact List.cons_ne_nil c l h2

/-- With fuel left and a nonzero numerator the base-36 fraction printer
emits at least one digit. -/
theorem frac36Digits_ne_nil (fuel k : Nat) (hf : fuel ≠ 0) (hk : k ≠ 0) :
    frac36Digits fuel k ≠ [] := by
  cases fuel with
  | zero => exact absurd rfl hf
  | succ n => simp [frac36Digits, hk]

/-- Code point of a decimal digit character. -/
theorem digitChar_toNat (d : Nat) (hd : d < 10) : (digitChar d).toNat = 48 + d := by
  interval_cases d <;> decide

/-- The filename the rotating file transport derives for a date, after the
%DATE% substitution in the configured pattern. -/
theorem logFileForDate_eq (y m d : Nat) :
    logFileForDate y m d = "logs/app-" ++ formatIsoDate y m d ++ ".log" := rfl

/-- C1: the spec requires that every log line emitted while handling
request A carries exactly A's requestId; the code keeps the request context
in one shared mutable field of a singleton service, so in the interleaving
where request B's middleware runs setRequest between A's setRequest and A's
log call, the line emitted by handler A carries B's requestId even though
A's own context had requestId A. -/
theorem C1_shared_context_cross_attribution :
    getProp ((runShared sampleDate 1 [] contaminationSchedule).headD ("", [])).2 "requestId"
        = some (JVal.jstr "B")
    ∧ getProp (LoggingService.setRequest 1 requestA) "requestId" = some (JVal.jstr "A")
    ∧ "A" ≠ "B" :=
  ⟨rfl, rfl, by decide⟩

/-- C2: under the stored request context posited by the claim, the entry
produced by log hello with caller metadata userId 7 does NOT contain userId
at the top level: the caller metadata sits nested under the single key
metadata. The context fields, message hello and level info are present as
claimed; and a context built by setRequest stores the verb under the key
methode, so it never contains a field named method at all. -/
theorem C2_log_wraps_caller_metadata :
    getProp claimEntry "userId" = none
    ∧ getProp claimEntry "metadata" = some (JVal.jobj [("userId", JVal.jnum 7)])
    ∧ getProp claimEntry "method" = some (JVal.jstr "GET")
    ∧ getProp claimEntry "message" = some (JVal.jstr "hello")
    ∧ getProp claimEntry "level" = some (JVal.jstr "info")
    ∧ getProp (LoggingService.setRequest 1 claimRequest) "method" = none
    ∧ getProp (LoggingService.setRequest 1 claimRequest) "methode" = some (JVal.jstr "GET") :=
  ⟨rfl, rfl, rfl, rfl, rfl, rfl, rfl⟩

/-- C5: the entry built by print carries a timestamp produced by
Date.prototype.toDateString at formatting time, which is a locale date
string such as Sat Mar 15 2025 and is not an ISO-8601 string, while the
timestamp format the constructor configures on the winston logger is a
different, ISO-like shape; so the source uses two distinct timestamp
representations and the one print stores is not ISO-8601. -/
theorem C5_print_timestamp_not_iso :
    getProp (LoggingService.print sampleDate [] "info" "hello" (JVal.jobj [])) "timestamp"
        = some (JVal.jstr (toDateString sampleDate))
    ∧ toDateString sampleDate = "Sat Mar 15 2025"
    ∧ hasIsoDateShape "Sat Mar 15 2025" = false
    ∧ winstonTimestampFormat = "YYYY-MM-DD HH:mm:ss"
    ∧ hasIsoDateShape "2025-03-15 10:30:00" = true :=
  ⟨rfl, by decide, by decide, rfl, by decide⟩

/-- C6: the source configures the Elasticsearch transport with minimum
level info, not the claimed warn default, so an info entry IS forwarded to
the remote store; under a warn minimum it would not have been, and
debug entries are still filtered out by the info minimum. -/
theorem C6_remote_sink_forwards_info :
    elasticsearchTransportLevel = "info"
    ∧ transportAccepts elasticsearchTransportLevel "info" = true
    ∧ transportAccepts "warn" "info" = false
    ∧ transportAccepts elasticsearchTransportLevel "debug" = false := by
  refine ⟨rfl, by decide, by decide, by decide⟩

/-- C3: print builds the final entry by spreading the stored request
context first and the caller metadata second, so for any key the caller
metadata binds, the caller's value is the one the final entry yields, and
any key the caller metadata does not bind falls through to the context and
base fields. -/
theorem C3_caller_metadata_wins (now : JsDate) (req : JObj) (level message : String)
    (md : JObj) (k : String) :
    ((getProp md k).isSome = true →
      getProp (LoggingService.print now req level message (JVal.jobj md)) k = getProp md k)
    ∧ (getProp md k = none →
      getProp (LoggingService.print now req level message (JVal.jobj md)) k
        = getProp (baseFields now level message ++ req) k) := by
  constructor
  · intro h
    obtain ⟨v, hv⟩ := Option.isSome_iff_exists.mp h
    simp [LoggingService.print, spreadObj, getProp_append, hv, Option.elim]
  · intro h
    simp [LoggingService.print, spreadObj, getProp_append, h, Option.elim]

/-- Witness for C3 at a concrete collision: the context binds ip to 1.2.3.4
and the caller metadata binds ip to 9.9.9.9; the final entry yields the
caller's value. -/
theorem C3_caller_metadata_wins_witness :
    getProp (LoggingService.print sampleDate [("ip", JVal.jstr "1.2.3.4")] "warn" "m"
        (JVal.jobj [("ip", JVal.jstr "9.9.9.9")])) "ip" = some (JVal.jstr "9.9.9.9") :=
  (C3_caller_metadata_wins sampleDate [("ip", JVal.jstr "1.2.3.4")] "warn" "m"
      [("ip", JVal.jstr "9.9.9.9")] "ip").1 rfl

/-- C4: an error call with an Error instance and caller metadata yields an
entry whose serialized error field equals the Error's stack text and which
still yields each caller metadata key; an error call with no optional
arguments defaults the metadata to empty and its serialized entry has no
error field at all. -/
theorem C4_error_stack_and_defaults (now : JsDate) (req : JObj) (message stack : String)
    (md : JObj) (k : String) (hk : k ≠ "error") (hmd : (getProp md k).isSome = true) :
    serializedGet (LoggingService.error now req message [JVal.jerr stack, JVal.jobj md]) "error"
        = some (JVal.jstr stack)
    ∧ getProp (LoggingService.error now req message [JVal.jerr stack, JVal.jobj md]) k
        = getProp md k
    ∧ serializedGet (LoggingService.error now req message []) "error" = none
    ∧ LoggingService.error now req message []
        = LoggingService.print now req "error" message (JVal.jobj [("error", JVal.jundef)]) := by
  refine ⟨?_, ?_, ?_, rfl⟩
  · simp [LoggingService.error, LoggingService.print, spreadObj, serializedGet,
      getProp_append, getProp, Option.elim]
  · obtain ⟨v, hv⟩ := Option.isSome_iff_exists.mp hmd
    simp [LoggingService.error, LoggingService.print, spreadObj, getProp_append,
      getProp, hv, Option.elim, Ne.symm hk]
  · simp [LoggingService.error, LoggingService.print, spreadObj, serializedGet,
      getProp_append, getProp, Option.elim]

/-- Witness for C4 at the concrete inputs of the claim: error fail with a
stack TRACE and metadata svc X, and error fail with nothing else. -/
theorem C4_error_stack_and_defaults_witness :
    serializedGet (LoggingService.error sampleDate [] "fail"
        [JVal.jerr "TRACE", JVal.jobj [("svc", JVal.jstr "X")]]) "error"
      = some (JVal.jstr "TRACE")
    ∧ getProp (LoggingService.error sampleDate [] "fail"
        [JVal.jerr "TRACE", JVal.jobj [("svc", JVal.jstr "X")]]) "svc"
      = some (JVal.jstr "X")
    ∧ serializedGet (LoggingService.error sampleDate [] "fail" []) "error" = none := by
  have h := C4_error_stack_and_defaults sampleDate [] "fail" "TRACE"
    [("svc", JVal.jstr "X")] "svc" (by decide) rfl
  exact ⟨h.1, h.2.1, h.2.2.1⟩

/-- C9: when error is called with exactly one optional argument that is not
an Error instance, that argument is dropped entirely: the entry equals the
one produced with no optional arguments, and its serialized form has no
error field. -/
theorem C9_single_non_error_param_dropped (now : JsDate) (req : JObj) (message : String)
    (v : JVal) (hv : isErrorVal v = false) :
    LoggingService.error now req message [v] = LoggingService.error now req message []
    ∧ serializedGet (LoggingService.error now req message [v]) "error" = none := by
  have h1 : LoggingService.error now req message [v] = LoggingService.error now req message [] := by
    cases v with
    | jerr stack => simp [isErrorVal] at hv
    | jstr s => rfl
    | jnum n => rfl
    | jbool b => rfl
    | jnull => rfl
    | jundef => rfl
    | jobj fields => rfl
  have h2 : serializedGet (LoggingService.error now req message []) "error" = none := by
    simp [LoggingService.error, LoggingService.print, spreadObj, serializedGet,
      getProp_append, getProp, Option.elim]
  exact ⟨h1, by rw [h1]; exact h2⟩

/-- Witness for C9 at a concrete non-Error object argument with a key. -/
theorem C9_single_non_error_param_dropped_witness :
    LoggingService.error sampleDate [] "fail" [JVal.jobj [("svc", JVal.jstr "X")]]
        = LoggingService.error sampleDate [] "fail" []
    ∧ serializedGet (LoggingService.error sampleDate [] "fail"
        [JVal.jobj [("svc", JVal.jstr "X")]]) "error" = none :=
  C9_single_non_error_param_dropped sampleDate [] "fail"
    (JVal.jobj [("svc", JVal.jstr "X")]) rfl

/-- C10: warn, debug and verbose spread the caller metadata's keys at the
top level of the entry, while log places the same metadata nested under the
single top-level key metadata; a key the metadata binds is yielded by the
warn entry but falls through to the base and context fields in the log
entry. -/
theorem C10_log_nests_others_spread (now : JsDate) (req : JObj) (message : String)
    (md : JObj) (k : String) (v : JVal)
    (hmd : getProp md k = some v) (hk : k ≠ "metadata") :
    LoggingService.warn now req message [JVal.jobj md]
        = baseFields now "warn" message ++ req ++ md
    ∧ LoggingService.debug now req message [JVal.jobj md]
        = baseFields now "debug" message ++ req ++ md
    ∧ LoggingService.verbose now req message [JVal.jobj md]
        = baseFields now "verbose" message ++ req ++ md
    ∧ LoggingService.log now req message [JVal.jobj md]
        = baseFields now "info" message ++ req ++ [("metadata", JVal.jobj md)]
    ∧ getProp (LoggingService.warn now req message [JVal.jobj md]) k = some v
    ∧ getProp (LoggingService.log now req message [JVal.jobj md]) k
        = getProp (baseFields now "info" message ++ req) k
    ∧ getProp (LoggingService.log now req message [JVal.jobj md]) "metadata"
        = some (JVal.jobj md) := by
  refine ⟨rfl, rfl, rfl, rfl, ?_, ?_, ?_⟩
  · simp [LoggingService.warn, LoggingService.print, jsOr, truthy, spreadObj,
      getProp_append, hmd, Option.elim]
  · simp [LoggingService.log, LoggingService.print, jsOr, truthy, spreadObj,
      getProp_append, getProp, Option.elim, Ne.symm hk]
  · simp [LoggingService.log, LoggingService.print, jsOr, truthy, spreadObj,
      getProp_append, getProp, Option.elim]

/-- Witness for C10 at concrete metadata svc X: warn yields svc at the top
level, log does not, and log nests the object under metadata. -/
theorem C10_log_nests_others_spread_witness :
    getProp (LoggingService.warn sampleDate [] "m" [JVal.jobj [("svc", JVal.jstr "X")]]) "svc"
        = some (JVal.jstr "X")
    ∧ getProp (LoggingService.log sampleDate [] "m" [JVal.jobj [("svc", JVal.jstr "X")]]) "svc"
        = none
    ∧ getProp (LoggingService.log sampleDate [] "m" [JVal.jobj [("svc", JVal.jstr "X")]]) "metadata"
        = some (JVal.jobj [("svc", JVal.jstr "X")]) := by
  have h := C10_log_nests_others_spread sampleDate [] "m" [("svc", JVal.jstr "X")]
    "svc" (JVal.jstr "X") rfl (by decide)
  exact ⟨h.2.2.2.2.1, h.2.2.2.2.2.1, h.2.2.2.2.2.2⟩

/-- C7 counterexample: the claim quantifies over every possible outcome of
the process-local randomness, but Math.random can return exactly 0, whose
base-36 rendering is the single character 0; substring(2, 15) of it is the
empty string, so setRequest on a request with no x-request-id header then
stores an EMPTY requestId at that outcome. -/
theorem C7_counterexample_zero_outcome :
    LoggingService.generateRequestId 0 = ""
    ∧ getProp (LoggingService.setRequest 0 noIdRequest) "requestId" = some (JVal.jstr "") := by
  refine ⟨by decide, ?_⟩
  have h : getProp (LoggingService.setRequest 0 noIdRequest) "requestId"
      = some (JVal.jstr (LoggingService.generateRequestId 0)) := rfl
  rw [h, show LoggingService.generateRequestId 0 = "" from by decide]

/-- C7 as amended: whenever setRequest runs on a request whose headers have
no x-request-id entry, the stored requestId is the generated id, and for
every randomness outcome other than exactly 0 that generated id is a
non-empty string. -/
theorem C7_generated_id_nonempty (k : Nat) (request : Request)
    (hk0 : 0 < k) (_hkd : k < randomDenom)
    (hh : getProp request.headers "x-request-id" = none) :
    getProp (LoggingService.setRequest k request) "requestId"
        = some (JVal.jstr (LoggingService.generateRequestId k))
    ∧ LoggingService.generateRequestId k ≠ "" := by
  constructor
  · have h1 : headerGet request "x-request-id" = JVal.jundef := by simp [headerGet, hh]
    have h2 : getProp (LoggingService.setRequest k request) "requestId"
        = some (jsOr (headerGet request "x-request-id")
            (JVal.jstr (LoggingService.generateRequestId k))) := rfl
    rw [h2, h1]
    rfl
  · have hk : ¬ k = 0 := by omega
    have h36 : jsToString36Chars k = '0' :: '.' :: frac36Digits 60 k := by
      unfold jsToString36Chars
      rw [if_neg hk]
    cases hds : frac36Digits 60 k with
    | nil => exact absurd hds (frac36Digits_ne_nil 60 k (by decide) hk)
    | cons c cs =>
      have hgen : LoggingService.generateRequestId k = String.mk (c :: List.take 12 cs) := by
        unfold LoggingService.generateRequestId
        rw [h36, hds]
        rfl
      rw [hgen]
      exact stringMk_cons_ne_empty c (List.take 12 cs)

/-- Witness for C7 as amended, at outcome 1 and a request with no
x-request-id header. -/
theorem C7_generated_id_nonempty_witness :
    getProp (LoggingService.setRequest 1 noIdRequest) "requestId"
        = some (JVal.jstr (LoggingService.generateRequestId 1))
    ∧ LoggingService.generateRequestId 1 ≠ "" :=
  C7_generated_id_nonempty 1 noIdRequest (by decide) (by decide) rfl

/-- Two dates rendering to the same YYYY-MM-DD character list are the same
date, for years below 10000 and months and days below 100. -/
theorem formatIsoDateChars_inj (y m d y2 m2 d2 : Nat)
    (hy : y < 10000) (hm : m < 100) (hd : d < 100)
    (hy2 : y2 < 10000) (hm2 : m2 < 100) (hd2 : d2 < 100)
    (h : formatIsoDateChars y m d = formatIsoDateChars y2 m2 d2) :
    y = y2 ∧ m = m2 ∧ d = d2 := by
  simp only [formatIsoDateChars, List.cons.injEq, and_true] at h
  obtain ⟨e1, e2, e3, e4, -, e5, e6, -, e7, e8⟩ := h
  have n1 := congrArg Char.toNat e1
  have n2 := congrArg Char.toNat e2
  have n3 := congrArg Char.toNat e3
  have n4 := congrArg Char.toNat e4
  have n5 := congrArg Char.toNat e5
  have n6 := congrArg Char.toNat e6
  have n7 := congrArg Char.toNat e7
  have n8 := congrArg Char.toNat e8
  rw [digitChar_toNat _ (by omega), digitChar_toNat _ (by omega)] at n1 n2 n3 n4 n5 n6 n7 n8
  omega

/-- C8: the rotating file transport is configured with directory logs,
filename pattern app-%DATE%.log, daily date pattern and a 30 day maxFiles
option; hence the file for a calendar day is logs/app-YYYY-MM-DD.log,
distinct days yield distinct files, the retention window parses to 30 days,
and the modelled prune cycle deletes a file exactly when its age exceeds
30 days. -/
theorem C8_daily_rotation_and_retention (y m d y2 m2 d2 : Nat)
    (hy : y < 10000) (hm : m < 100) (hd : d < 100)
    (hy2 : y2 < 10000) (hm2 : m2 < 100) (hd2 : d2 < 100) :
    logFileForDate y m d = "logs/app-" ++ formatIsoDate y m d ++ ".log"
    ∧ (logFileForDate y m d = logFileForDate y2 m2 d2 → y = y2 ∧ m = m2 ∧ d = d2)
    ∧ retentionDays = 30
    ∧ (∀ age : Nat, pruneDeletes age = true ↔ 30 < age) := by
  refine ⟨logFileForDate_eq y m d, ?_, by decide, ?_⟩
  · intro h
    rw [logFileForDate_eq, logFileForDate_eq] at h
    have hdata := congrArg String.data h
    simp only [String.data_append, formatIsoDate] at hdata
    have hmid := List.append_cancel_left (List.append_cancel_right hdata)
    exact formatIsoDateChars_inj y m d y2 m2 d2 hy hm hd hy2 hm2 hd2 hmid
  · intro age
    have hr : retentionDays = 30 := by decide
    simp [pruneDeletes, hr]

/-- Witness for C8 at the concrete days March 15 2025 and March 16 2025. -/
theorem C8_daily_rotation_and_retention_witness :
    logFileForDate 2025 3 15 = "logs/app-" ++ formatIsoDate 2025 3 15 ++ ".log"
    ∧ (logFileForDate 2025 3 15 = logFileForDate 2025 3 16 → 2025 = 2025 ∧ 3 = 3 ∧ 15 = 16)
    ∧ retentionDays = 30
    ∧ (∀ age : Nat, pruneDeletes age = true ↔ 30 < age) :=
  C8_daily_rotation_and_retention 2025 3 15 2025 3 16 (by decide) (by decide)
    (by decide) (by decide) (by decide) (by decide)

end NestForge
